import Mathlib

/-!
Shallow embedding of `src/quickcl/qquickclcontext.cpp` (QQuickCLContext).

Native OpenCL / OpenGL calls are modelled by an explicit environment
(`CLEnv`) that supplies the results the native API would return.  Opaque
native handles (`cl_platform_id`, `cl_device_id`, `cl_context`,
`cl_program`) are modelled as `Nat`, with `0` playing the role of the null
pointer, exactly as the C++ code compares them against `0`.

Byte buffers (`QByteArray`) are modelled as `List Char`; a buffer of size
`n` filled by a native info query is the written bytes followed by `'\0'`
padding (`padBuf`).  `strstr` / `QByteArray::contains` are modelled by the
executable substring test `hasSubstr`.
-/

/-- `startsWithL needle hay`: the list `needle` is an initial segment of
`hay` (character-wise, by `==`). -/
def startsWithL : List Char → List Char → Bool
  | [], _ => true
  | _ :: _, [] => false
  | a :: as, b :: bs => a == b && startsWithL as bs

/-- `hasSubstr hay needle`: `needle` occurs contiguously inside `hay`.
Models C `strstr(hay, needle) != NULL` and `QByteArray::contains`. -/
def hasSubstr (hay needle : List Char) : Bool :=
  match hay with
  | [] => startsWithL needle []
  | c :: t => startsWithL needle (c :: t) || hasSubstr t needle

/-- The null byte used to model `'\0'` in C buffers. -/
def nulChar : Char := Char.ofNat 0

/-- A buffer of size `n` after a native info query wrote `w` into it:
the written bytes (clamped to the buffer size) followed by null padding.
Models `QByteArray(n, '\0')` (or `resize(n)`) filled by `clGet*Info`. -/
def padBuf (n : Nat) (w : List Char) : List Char :=
  w.take n ++ List.replicate (n - w.length) nulChar

/-- `strlen`-style truncation: the bytes before the first null byte.
Models reading a buffer through `constData()` with `strlen`. -/
def takeToNul (l : List Char) : List Char :=
  l.takeWhile (fun c => c != nulChar)

/-- The private state of a `QQuickCLContext`: the three opaque handles,
`0` meaning null.  Mirrors `QQuickCLContextPrivate` (lines 60-72). -/
structure QQuickCLContextPrivate where
  platform : Nat
  device : Nat
  context : Nat
  deriving DecidableEq, Repr

/-- The all-null state the constructor establishes (lines 63-67). -/
def initialState : QQuickCLContextPrivate :=
  { platform := 0, device := 0, context := 0 }

/-- Environment modelling the results of the native OpenCL / OpenGL calls
`create()`, `platformName()`, `deviceExtensions()` and `buildProgram()`
perform.  Each field is what the corresponding native call would report. -/
structure CLEnv where
  /-- `QOpenGLContext::currentContext() != nullptr`. -/
  glCurrent : Bool
  /-- `glGetString(GL_VENDOR)`; `none` models a null pointer. -/
  glVendor : Option String
  /-- Return code of `clGetPlatformIDs(0, 0, &n)`; `0` is `CL_SUCCESS`. -/
  platformCountErr : Int
  /-- The enumerated platform ids; `n` is the length of this list. -/
  platforms : List Nat
  /-- Whether the second `clGetPlatformIDs(n, data, 0)` call succeeded. -/
  platformsQueryOk : Bool
  /-- Bytes `clGetPlatformInfo(p, CL_PLATFORM_NAME, ...)` writes for
  platform `p`.  A conforming implementation writes nothing for an
  invalid (null) platform handle. -/
  platformInfoWrite : Nat → List Char
  /-- Bytes `clGetDeviceInfo(d, CL_DEVICE_EXTENSIONS, ...)` writes for
  device `d`. -/
  deviceInfoWrite : Nat → List Char
  /-- Context handle `clCreateContextFromType` returns for the chosen
  platform; `0` models a null return (creation failure). -/
  createContextHandle : Nat → Nat
  /-- Device written by the `clGetGLContextInfoKHR` extension query;
  `none` models "extension unavailable or the query failed". -/
  glContextInfoDevice : Option Nat
  /-- Device written by the fallback `clGetDeviceIDs(platform,
  CL_DEVICE_TYPE_GPU, 1, ...)`; `none` models a failure return code. -/
  fallbackDevice : Option Nat
  /-- Program handle `clCreateProgramWithSource(context, ...)` returns;
  `0` models a null return. -/
  createProgramHandle : Nat → Nat
  /-- Return code of `clBuildProgram`; `0` is `CL_SUCCESS`. -/
  buildErr : Int
  /-- Bytes `clGetProgramBuildInfo(..., CL_PROGRAM_BUILD_LOG, ...)`
  writes into the 8192-byte log buffer. -/
  buildLogWrite : List Char

namespace QQuickCLContext

/-- `QQuickCLContext::isValid` (lines 97-101): `d->context != 0`. -/
def isValid (d : QQuickCLContextPrivate) : Bool :=
  d.context != 0

/-- `QQuickCLContext::destroy` (lines 291-301): release the native
context handle if non-null, then reset all three handles to null.
Returns the new state together with the list of handles passed to
`clReleaseContext`. -/
def destroy (d : QQuickCLContextPrivate) : QQuickCLContextPrivate × List Nat :=
  if d.context != 0 then
    ({ platform := 0, device := 0, context := 0 }, [d.context])
  else
    ({ platform := 0, device := 0, context := 0 }, [])

/-- The token looked for in `GL_VENDOR` and platform names for NVIDIA. -/
def nvidiaTok : List Char := "NVIDIA".toList

/-- The token looked for in `GL_VENDOR` and platform names for Intel. -/
def intelTok : List Char := "Intel".toList

/-- The token looked for in `GL_VENDOR` for the AMD bucket (line 200:
`strstr(vendor, "ATI")`). -/
def atiTok : List Char := "ATI".toList

/-- The token looked for in platform names for the AMD bucket (line 211:
`name.contains("AMD")`). -/
def amdTok : List Char := "AMD".toList

/-- `vendor && strstr(vendor, tok)` (lines 198-200): false on a null
vendor string, else substring containment. -/
def vendorHas (v : Option String) (tok : List Char) : Bool :=
  match v with
  | none => false
  | some s => hasSubstr s.toList tok

/-- The vendor classification of lines 198-200: the triple
`(isNV, isIntel, isAMD)` computed from `GL_VENDOR`. -/
def classifyVendor (v : Option String) : Bool × Bool × Bool :=
  (vendorHas v nvidiaTok, vendorHas v intelTok, vendorHas v atiTok)

/-- The body of the platform-selection loop (lines 207-212): keep the
current selection `acc` unless one of the flagged vendor buckets matches
platform `p`'s name, in which case select `p`. -/
def selStep (isNV isIntel isAMD : Bool) (name : Nat → List Char)
    (acc p : Nat) : Nat :=
  if isNV && hasSubstr (name p) nvidiaTok then p
  else if isIntel && hasSubstr (name p) intelTok then p
  else if isAMD && hasSubstr (name p) amdTok then p
  else acc

/-- Whether the loop body overrides the selection at a platform with the
given name: the disjunction of the three guarded matches of lines
207-212 (all three branches assign the same value). -/
def platformMatch (isNV isIntel isAMD : Bool) (name : List Char) : Bool :=
  (isNV && hasSubstr name nvidiaTok)
    || (isIntel && hasSubstr name intelTok)
    || (isAMD && hasSubstr name amdTok)

/-- Platform selection in `create` (lines 195-213): default to the first
enumerated platform, then run the override loop over all platforms in
enumeration order. -/
def selectPlatform (isNV isIntel isAMD : Bool) (name : Nat → List Char)
    (ps : List Nat) : Nat :=
  ps.foldl (selStep isNV isIntel isAMD name) (ps.headD 0)

/-- The 1024-byte name buffer the selection loop fills for platform `p`
(lines 203-205).  `QByteArray::resize(1024)` leaves the bytes past the
written name unspecified; they are modelled as null padding (no vendor
token contains a null byte, so matching is unaffected). -/
def nameBuf (env : CLEnv) (p : Nat) : List Char :=
  padBuf 1024 (env.platformInfoWrite p)

/-- The platform `create` ends up with after lines 195-213: the vendor
flags of lines 198-200 fed into the selection loop over the enumerated
platforms. -/
def chosenPlatform (env : CLEnv) : Nat :=
  selectPlatform (vendorHas env.glVendor nvidiaTok) (vendorHas env.glVendor intelTok)
    (vendorHas env.glVendor atiTok) (nameBuf env) env.platforms

/-- How many of the three vendor-bucket flags are set. -/
def flagCount (b : Bool × Bool × Bool) : Nat :=
  (if b.1 then 1 else 0) + (if b.2.1 then 1 else 0) + (if b.2.2 then 1 else 0)

/-- How many of the three vendor-identifying tokens (`NVIDIA`, `Intel`,
`ATI`) occur in a vendor string. -/
def vendorTokenCount (s : String) : Nat :=
  (if hasSubstr s.toList nvidiaTok then 1 else 0)
    + (if hasSubstr s.toList intelTok then 1 else 0)
    + (if hasSubstr s.toList atiTok then 1 else 0)

/-- `QQuickCLContext::create` (lines 158-286), on the generic (non-Apple,
non-ANGLE) path: destroy any previous state, require a current GL
context, enumerate platforms, classify the GL vendor and select a
platform, create the interop context, then resolve the device via the
`clGetGLContextInfoKHR` extension with `clGetDeviceIDs` as fallback,
tearing the context down again if resolution fails.  The OS-specific
interop property lists (lines 216-253) touch no observable state and are
not modelled.  Returns `(result, state, released handles)`. -/
def create (env : CLEnv) (d0 : QQuickCLContextPrivate) :
    Bool × QQuickCLContextPrivate × List Nat :=
  let st := (destroy d0).1
  let rel := (destroy d0).2
  if !env.glCurrent then (false, st, rel)
  else if env.platformCountErr != 0 then (false, st, rel)
  else if env.platforms.length == 0 then (false, st, rel)
  else if !env.platformsQueryOk then (false, st, rel)
  else
    let plat := chosenPlatform env
    let st1 : QQuickCLContextPrivate :=
      { platform := plat, device := 0, context := 0 }
    let ctx := env.createContextHandle plat
    if ctx == 0 then (false, st1, rel)
    else
      let st2 : QQuickCLContextPrivate := { st1 with context := ctx }
      match env.glContextInfoDevice with
      | some dev => (true, { st2 with device := dev }, rel)
      | none =>
        match env.fallbackDevice with
        | some dev => (true, { st2 with device := dev }, rel)
        | none => (false, (destroy st2).1, rel ++ (destroy st2).2)

/-- `QQuickCLContext::platformName` (lines 313-319): fill a 1024-byte
zero-initialized buffer from `clGetPlatformInfo` on the current platform
handle, then truncate at the first null byte. -/
def platformName (env : CLEnv) (d : QQuickCLContextPrivate) : List Char :=
  takeToNul (padBuf 1024 (env.platformInfoWrite d.platform))

/-- `QQuickCLContext::deviceExtensions` (lines 331-337): fill an
8192-byte zero-initialized buffer from `clGetDeviceInfo` on the current
device handle, then truncate at the first null byte. -/
def deviceExtensions (env : CLEnv) (d : QQuickCLContextPrivate) : List Char :=
  takeToNul (padBuf 8192 (env.deviceInfoWrite d.device))

/-- `QQuickCLContext::buildProgram` (lines 354-376): create a program
from source on the current context; on null return log the error and the
source and return null; else build it; on build failure log the error,
the source and the (8192-byte-bounded) build log and return null; on
success return the program handle.  Returns the handle together with the
list of logged texts. -/
def buildProgram (env : CLEnv) (d : QQuickCLContextPrivate)
    (src : List Char) : Nat × List (List Char) :=
  let prog := env.createProgramHandle d.context
  if prog == 0 then
    (0, ["Failed to create OpenCL program".toList, src])
  else if env.buildErr != 0 then
    let log := takeToNul (padBuf 8192 env.buildLogWrite)
    (0, ["Failed to build OpenCL program".toList, src, log])
  else
    (prog, [])

end QQuickCLContext

/-- The `QImage::Format` enumeration (Qt 5.5 era, as used by the
`switch` in `toCLImageFormat`, lines 403-459). -/
inductive QImageFormat where
  | Format_Invalid
  | Format_Mono
  | Format_MonoLSB
  | Format_Indexed8
  | Format_RGB32
  | Format_ARGB32
  | Format_ARGB32_Premultiplied
  | Format_RGB16
  | Format_ARGB8565_Premultiplied
  | Format_RGB666
  | Format_ARGB6666_Premultiplied
  | Format_RGB555
  | Format_ARGB8555_Premultiplied
  | Format_RGB888
  | Format_RGB444
  | Format_ARGB4444_Premultiplied
  | Format_RGBX8888
  | Format_RGBA8888
  | Format_RGBA8888_Premultiplied
  | Format_BGR30
  | Format_A2BGR30_Premultiplied
  | Format_RGB30
  | Format_A2RGB30_Premultiplied
  | Format_Alpha8
  | Format_Grayscale8
  deriving DecidableEq, Repr

/-- OpenCL channel order `CL_A`. -/
def CL_A : Nat := 0x10B1
/-- OpenCL channel order `CL_RGB`. -/
def CL_RGB : Nat := 0x10B4
/-- OpenCL channel order `CL_RGBA`. -/
def CL_RGBA : Nat := 0x10B5
/-- OpenCL channel order `CL_BGRA`. -/
def CL_BGRA : Nat := 0x10B6
/-- OpenCL channel order `CL_ARGB`. -/
def CL_ARGB : Nat := 0x10B7
/-- OpenCL channel order `CL_RGBx`. -/
def CL_RGBx : Nat := 0x10BC
/-- OpenCL channel data type `CL_UNORM_INT8`. -/
def CL_UNORM_INT8 : Nat := 0x10D2
/-- OpenCL channel data type `CL_UNORM_SHORT_565`. -/
def CL_UNORM_SHORT_565 : Nat := 0x10D4
/-- OpenCL channel data type `CL_UNORM_SHORT_555`. -/
def CL_UNORM_SHORT_555 : Nat := 0x10D5

/-- The `cl_image_format` pair filled in by `toCLImageFormat`. -/
structure cl_image_format where
  image_channel_order : Nat
  image_channel_data_type : Nat
  deriving DecidableEq, Repr

namespace QQuickCLContext

/-- `QQuickCLContext::toCLImageFormat` (lines 403-459), with the host
byte order (`QSysInfo::ByteOrder == QSysInfo::LittleEndian`) passed
explicitly as `le`. -/
def toCLImageFormat (le : Bool) (format : QImageFormat) : cl_image_format :=
  match format with
  | .Format_Indexed8 =>
      { image_channel_order := CL_A, image_channel_data_type := CL_UNORM_INT8 }
  | .Format_RGB32 | .Format_ARGB32 | .Format_ARGB32_Premultiplied =>
      if le then
        { image_channel_order := CL_BGRA, image_channel_data_type := CL_UNORM_INT8 }
      else
        { image_channel_order := CL_ARGB, image_channel_data_type := CL_UNORM_INT8 }
  | .Format_RGB16 =>
      { image_channel_order := CL_RGB, image_channel_data_type := CL_UNORM_SHORT_565 }
  | .Format_RGB555 =>
      { image_channel_order := CL_RGB, image_channel_data_type := CL_UNORM_SHORT_555 }
  | .Format_RGB888 =>
      { image_channel_order := CL_RGB, image_channel_data_type := CL_UNORM_INT8 }
  | .Format_RGBX8888 =>
      { image_channel_order := CL_RGBx, image_channel_data_type := CL_UNORM_INT8 }
  | .Format_RGBA8888 | .Format_RGBA8888_Premultiplied =>
      { image_channel_order := CL_RGBA, image_channel_data_type := CL_UNORM_INT8 }
  | _ =>
      { image_channel_order := 0, image_channel_data_type := 0 }

end QQuickCLContext

/-- Modelled from the spec: the §4.4 pixel-format mapping table, row by
row — 8-bit indexed ↦ alpha-only/unorm8; the 32-bit RGB/ARGB family ↦
BGRA (little-endian) or ARGB (big-endian) with unorm8; 565 ↦ RGB/565;
555 ↦ RGB/555; 24-bit RGB ↦ RGB/unorm8; RGBx ↦ RGBx/unorm8; the RGBA
family ↦ RGBA/unorm8; any other format ↦ the zero/zero sentinel. -/
def specImageFormatTable (le : Bool) (format : QImageFormat) : cl_image_format :=
  match format with
  | .Format_Indexed8 => ⟨CL_A, CL_UNORM_INT8⟩
  | .Format_RGB32 => if le then ⟨CL_BGRA, CL_UNORM_INT8⟩ else ⟨CL_ARGB, CL_UNORM_INT8⟩
  | .Format_ARGB32 => if le then ⟨CL_BGRA, CL_UNORM_INT8⟩ else ⟨CL_ARGB, CL_UNORM_INT8⟩
  | .Format_ARGB32_Premultiplied =>
      if le then ⟨CL_BGRA, CL_UNORM_INT8⟩ else ⟨CL_ARGB, CL_UNORM_INT8⟩
  | .Format_RGB16 => ⟨CL_RGB, CL_UNORM_SHORT_565⟩
  | .Format_RGB555 => ⟨CL_RGB, CL_UNORM_SHORT_555⟩
  | .Format_RGB888 => ⟨CL_RGB, CL_UNORM_INT8⟩
  | .Format_RGBX8888 => ⟨CL_RGBx, CL_UNORM_INT8⟩
  | .Format_RGBA8888 => ⟨CL_RGBA, CL_UNORM_INT8⟩
  | .Format_RGBA8888_Premultiplied => ⟨CL_RGBA, CL_UNORM_INT8⟩
  | _ => ⟨0, 0⟩

/-- A concrete environment in which everything up to platform selection
succeeds but `clCreateContextFromType` returns null. -/
def envCtxFail : CLEnv :=
  { glCurrent := true, glVendor := none, platformCountErr := 0,
    platforms := [5], platformsQueryOk := true,
    platformInfoWrite := fun _ => [], deviceInfoWrite := fun _ => [],
    createContextHandle := fun _ => 0, glContextInfoDevice := none,
    fallbackDevice := none, createProgramHandle := fun _ => 0,
    buildErr := 0, buildLogWrite := [] }

/-- A concrete environment with no current OpenGL context. -/
def envNoGL : CLEnv :=
  { glCurrent := false, glVendor := none, platformCountErr := 0,
    platforms := [], platformsQueryOk := false,
    platformInfoWrite := fun _ => [], deviceInfoWrite := fun _ => [],
    createContextHandle := fun _ => 0, glContextInfoDevice := none,
    fallbackDevice := none, createProgramHandle := fun _ => 0,
    buildErr := 0, buildLogWrite := [] }

/-- A concrete environment in which context creation succeeds (handle 7)
but both device-resolution steps fail. -/
def envDevFail : CLEnv :=
  { glCurrent := true, glVendor := none, platformCountErr := 0,
    platforms := [5], platformsQueryOk := true,
    platformInfoWrite := fun _ => [], deviceInfoWrite := fun _ => [],
    createContextHandle := fun _ => 7, glContextInfoDevice := none,
    fallbackDevice := none, createProgramHandle := fun _ => 0,
    buildErr := 0, buildLogWrite := [] }

/-- A concrete environment in which program creation succeeds (handle 9)
but the build step fails. -/
def envBuildFail : CLEnv :=
  { glCurrent := true, glVendor := none, platformCountErr := 0,
    platforms := [5], platformsQueryOk := true,
    platformInfoWrite := fun _ => [], deviceInfoWrite := fun _ => [],
    createContextHandle := fun _ => 7, glContextInfoDevice := some 3,
    fallbackDevice := none, createProgramHandle := fun _ => 9,
    buildErr := -11, buildLogWrite := "kernel.cl:1: error".toList }

/-- Concrete platform names for the selection witnesses: platform 2 is
the NVIDIA platform, every other id is an Intel platform. -/
def namesNVIntel : Nat → List Char :=
  fun p => if p == 2 then "NVIDIA CUDA".toList else "Intel(R) OpenCL".toList

/-- Concrete platform names for the AMD-bucket witness: platform 1 is
named with the `ATI` brand, platform 2 is an unrelated platform; no name
contains `AMD`. -/
def namesATIOnly : Nat → List Char :=
  fun p => if p == 1 then "ATI Stream".toList else "Clover".toList

namespace QQuickCLContext

/-! ### Helper lemmas -/

lemma selStep_eq_if (f1 f2 f3 : Bool) (name : Nat → List Char) (acc p : Nat) :
    selStep f1 f2 f3 name acc p =
      if platformMatch f1 f2 f3 (name p) then p else acc := by
  unfold selStep platformMatch
  cases h1 : f1 && hasSubstr (name p) nvidiaTok <;>
    cases h2 : f2 && hasSubstr (name p) intelTok <;>
      cases h3 : f3 && hasSubstr (name p) amdTok <;>
        simp [h1, h2, h3]

lemma getLastD_concat (l : List Nat) (a : Nat) : ∀ d, (l ++ [a]).getLastD d = a := by
  induction l with
  | nil => intro d; rfl
  | cons b t ih => intro d; rw [List.cons_append, List.getLastD_cons]; exact ih b

lemma foldl_selStep (f1 f2 f3 : Bool) (name : Nat → List Char) (ps : List Nat) :
    ∀ acc, ps.foldl (selStep f1 f2 f3 name) acc =
      (ps.filter fun q => platformMatch f1 f2 f3 (name q)).getLastD acc := by
  induction ps with
  | nil => intro acc; rfl
  | cons p t ih =>
      intro acc
      rw [List.foldl_cons, ih, selStep_eq_if]
      by_cases h : platformMatch f1 f2 f3 (name p) = true
      · rw [if_pos h]
        simp only [List.filter_cons]
        rw [if_pos h, List.getLastD_cons]
      · rw [if_neg h]
        simp only [List.filter_cons]
        rw [if_neg h]

lemma selectPlatform_eq_getLastD (f1 f2 f3 : Bool) (name : Nat → List Char)
    (ps : List Nat) :
    selectPlatform f1 f2 f3 name ps =
      (ps.filter fun q => platformMatch f1 f2 f3 (name q)).getLastD (ps.headD 0) := by
  unfold selectPlatform
  exact foldl_selStep f1 f2 f3 name ps (ps.headD 0)

lemma padBuf_length (n : Nat) (w : List Char) : (padBuf n w).length = n := by
  unfold padBuf
  simp [List.length_take]
  omega

lemma padBuf_nil (n : Nat) : padBuf n [] = List.replicate n nulChar := by
  unfold padBuf
  simp

lemma takeToNul_length_le (l : List Char) : (takeToNul l).length ≤ l.length := by
  unfold takeToNul
  induction l with
  | nil => simp
  | cons a t ih =>
      rw [List.takeWhile_cons]
      by_cases h : (a != nulChar) = true
      · rw [if_pos h]
        simpa using ih
      · rw [if_neg h]
        simp

lemma takeToNul_replicate (n : Nat) : takeToNul (List.replicate n nulChar) = [] := by
  cases n with
  | zero => rfl
  | succ m =>
      rw [List.replicate_succ]
      unfold takeToNul
      rw [List.takeWhile_cons]
      simp

lemma takeToNul_no_nul (l : List Char) (c : Char) (h : c ∈ takeToNul l) : c ≠ nulChar := by
  have hb := List.mem_takeWhile_imp h
  simpa using hb

lemma destroy_fst (d : QQuickCLContextPrivate) : (destroy d).1 = initialState := by
  unfold destroy initialState
  split <;> rfl

lemma create_context_null_device_null (env : CLEnv) (d0 : QQuickCLContextPrivate) :
    (create env d0).2.1.context = 0 → (create env d0).2.1.device = 0 := by
  simp only [create]
  repeat' split
  all_goals simp_all [destroy_fst, initialState]

/-! ### Claims -/

/-- Claim C6: `destroy()` releases the native context handle exactly when
it is non-null, resets all three handles to null, is idempotent (a
second `destroy()` releases nothing and leaves the same all-null state),
and leaves `isValid()` false. -/
theorem destroy_releases_resets_idempotent (d : QQuickCLContextPrivate) :
    (destroy d).1 = initialState
    ∧ (destroy d).2 = (if d.context != 0 then [d.context] else [])
    ∧ destroy (destroy d).1 = (initialState, [])
    ∧ isValid (destroy d).1 = false := by
  unfold destroy initialState isValid
  by_cases h : (d.context != 0) = true <;> simp [h]

/-- Claim C1 counterexample: in an environment where platform enumeration
succeeds (platform id 5) but native context creation fails, `create`
leaves `context` null while `platform` is 5 — the claimed invariant
"context null implies platform and device null" fails on its platform
part. -/
theorem create_ctxFail_platform_not_null :
    (create envCtxFail initialState).2.1.context = 0
    ∧ ¬ (create envCtxFail initialState).2.1.platform = 0 := by decide

/-- Claim C1 (amended): after any `create()` or `destroy()` call, if the
context handle is null then the device handle is also null, and
`destroy()` additionally nulls the platform handle; the platform handle,
however, may remain non-null after a `create()` that failed at native
context creation, so no partial-success state is exposed only for the
device handle. -/
theorem context_null_implies_device_null (env : CLEnv) (d0 : QQuickCLContextPrivate) :
    ((create env d0).2.1.context = 0 → (create env d0).2.1.device = 0)
    ∧ (destroy d0).1.device = 0 ∧ (destroy d0).1.platform = 0
    ∧ (destroy d0).1.context = 0 ∧ initialState.device = 0 := by
  refine ⟨create_context_null_device_null env d0, ?_, ?_, ?_, rfl⟩
  · rw [destroy_fst]
    rfl
  · rw [destroy_fst]
    rfl
  · rw [destroy_fst]
    rfl

/-- Claim C1 (amended) witness at the concrete environment `envCtxFail`,
where the resulting context handle is null. -/
theorem context_null_implies_device_null_witness :
    (create envCtxFail initialState).2.1.device = 0
    ∧ (destroy initialState).1.device = 0 :=
  ⟨(context_null_implies_device_null envCtxFail initialState).1 (by decide),
   (context_null_implies_device_null envCtxFail initialState).2.1⟩

/-- Claim C2 counterexample: with no current OpenGL context, `create()`
called on a valid state `(1, 2, 3)` returns false but does not leave the
state unchanged: the initial `destroy()` resets it to all-null. -/
theorem create_noGL_not_unchanged :
    (create envNoGL { platform := 1, device := 2, context := 3 }).1 = false
    ∧ ¬ ((create envNoGL { platform := 1, device := 2, context := 3 }).2.1
          = { platform := 1, device := 2, context := 3 }) := by decide

/-- Claim C2 (amended): for every starting state, `create()` with no
current graphics context returns false and leaves the instance in the
all-null state; the state is additionally unchanged (and nothing is
released) when the starting state was already all-null, since the
initial `destroy()` is then a no-op. -/
theorem create_noGL_false_allnull (env : CLEnv) (d0 : QQuickCLContextPrivate)
    (h : env.glCurrent = false) :
    (create env d0).1 = false
    ∧ (create env d0).2.1 = initialState
    ∧ (d0 = initialState →
        (create env d0).2.1 = d0 ∧ (create env d0).2.2 = []) := by
  unfold create destroy initialState
  simp only [h]
  by_cases hc : (d0.context != 0) = true
  · simp only [hc]
    refine ⟨rfl, rfl, ?_⟩
    intro hd0
    rw [hd0] at hc
    simp at hc
  · simp only [Bool.not_eq_true] at hc
    simp [hc]
    intro hd0
    rw [hd0]

/-- Claim C2 (amended) witness at the concrete environment `envNoGL`,
starting from the all-null state. -/
theorem create_noGL_false_allnull_witness :
    (create envNoGL initialState).1 = false
    ∧ (create envNoGL initialState).2.1 = initialState
    ∧ (create envNoGL initialState).2.2 = [] :=
  ⟨(create_noGL_false_allnull envNoGL initialState rfl).1,
   (create_noGL_false_allnull envNoGL initialState rfl).2.1,
   ((create_noGL_false_allnull envNoGL initialState rfl).2.2 rfl).2⟩

/-- Claim C3: whenever `create()` succeeds in creating the native context
but both device-resolution steps fail (extension query unavailable or
failed, fallback device enumeration failed), it returns false, the final
state is all-null, and the just-created context handle was passed to
`clReleaseContext` — torn down, not leaked. -/
theorem create_devResolutionFail_teardown (env : CLEnv) (d0 : QQuickCLContextPrivate)
    (hgl : env.glCurrent = true)
    (hcnt : env.platformCountErr = 0)
    (hne : env.platforms ≠ [])
    (hq : env.platformsQueryOk = true)
    (hctx : env.createContextHandle (chosenPlatform env) ≠ 0)
    (hgi : env.glContextInfoDevice = none)
    (hfb : env.fallbackDevice = none) :
    (create env d0).1 = false
    ∧ (create env d0).2.1 = initialState
    ∧ env.createContextHandle (chosenPlatform env) ∈ (create env d0).2.2 := by
  unfold create destroy initialState
  simp [hgl, hcnt, hq, hgi, hfb, hctx, hne]

/-- Claim C3 witness at the concrete environment `envDevFail`. -/
theorem create_devResolutionFail_teardown_witness :
    (create envDevFail initialState).1 = false
    ∧ (create envDevFail initialState).2.1 = initialState
    ∧ envDevFail.createContextHandle (chosenPlatform envDevFail)
        ∈ (create envDevFail initialState).2.2 :=
  create_devResolutionFail_teardown envDevFail initialState rfl rfl (by decide) rfl
    (by decide) rfl rfl

/-- Claim C4: `toCLImageFormat` agrees with the §4.4 table on all eight
recognized formats — including the little-endian/big-endian branch for
the 32-bit RGB/ARGB family — and returns the zero/zero sentinel pair for
every other format value. -/
theorem toCLImageFormat_matches_spec_table (le : Bool) (fmt : QImageFormat) :
    toCLImageFormat le fmt = specImageFormatTable le fmt := by
  cases le <;> cases fmt <;> rfl

/-- Claim C5: platform selection in `create()` — writing `M` for the
override predicate of the selection loop: if no enumerated platform
matches `M`, the first enumerated platform is selected; if exactly one
matches, that platform is selected; if several match, the last matching
one in enumeration order is selected. -/
theorem selectPlatform_override_rules (f1 f2 f3 : Bool) (name : Nat → List Char)
    (ps : List Nat) :
    ((ps.filter fun q => platformMatch f1 f2 f3 (name q)) = [] →
        selectPlatform f1 f2 f3 name ps = ps.headD 0)
    ∧ (∀ q, (ps.filter fun r => platformMatch f1 f2 f3 (name r)) = [q] →
        selectPlatform f1 f2 f3 name ps = q)
    ∧ (∀ l q, (ps.filter fun r => platformMatch f1 f2 f3 (name r)) = l ++ [q] →
        selectPlatform f1 f2 f3 name ps = q) := by
  refine ⟨?_, ?_, ?_⟩
  · intro h
    rw [selectPlatform_eq_getLastD, h]
    rfl
  · intro q h
    rw [selectPlatform_eq_getLastD, h]
    rfl
  · intro l q h
    rw [selectPlatform_eq_getLastD, h]
    exact getLastD_concat l q _

/-- Claim C5 witness: among platforms `[1, 2]` exactly platform 2 carries
the NVIDIA name, and with the NVIDIA flag set it is selected. -/
theorem selectPlatform_override_rules_witness :
    ([1, 2].filter fun q => platformMatch true false false (namesNVIntel q)) = [2]
    ∧ selectPlatform true false false namesNVIntel [1, 2] = 2 :=
  ⟨by decide,
   (selectPlatform_override_rules true false false namesNVIntel [1, 2]).2.1 2 (by decide)⟩

/-- Claim C7 counterexample: the vendor string `"Intel NVIDIA"` contains
both the NVIDIA and the Intel token, so the classification of lines
198-200 sets two bucket flags at once — "at most one bucket flag is set"
is false for an arbitrary vendor string. -/
theorem classifyVendor_two_flags :
    (classifyVendor (some "Intel NVIDIA")).1 = true
    ∧ (classifyVendor (some "Intel NVIDIA")).2.1 = true := by decide

/-- Claim C7 (amended): each bucket flag is set exactly when the vendor
string contains the corresponding token (`NVIDIA` / `Intel` / `ATI`); a
null vendor sets no flag, and at most one flag is set whenever the
vendor string contains at most one of the three tokens — a string
containing several tokens sets several flags. -/
theorem classifyVendor_flags (v : Option String) :
    (classifyVendor v).1 = vendorHas v nvidiaTok
    ∧ (classifyVendor v).2.1 = vendorHas v intelTok
    ∧ (classifyVendor v).2.2 = vendorHas v atiTok
    ∧ flagCount (classifyVendor none) = 0
    ∧ (∀ s, v = some s → vendorTokenCount s ≤ 1 →
        flagCount (classifyVendor v) ≤ 1) := by
  refine ⟨rfl, rfl, rfl, rfl, ?_⟩
  intro s hv h
  subst hv
  simpa [classifyVendor, vendorHas, flagCount, vendorTokenCount] using h

/-- Claim C7 witness at the single-token vendor string
`"NVIDIA Corporation"`. -/
theorem classifyVendor_flags_witness :
    vendorTokenCount "NVIDIA Corporation" ≤ 1
    ∧ flagCount (classifyVendor (some "NVIDIA Corporation")) ≤ 1 :=
  ⟨by decide,
   (classifyVendor_flags (some "NVIDIA Corporation")).2.2.2.2 "NVIDIA Corporation" rfl
     (by decide)⟩

/-- Claim C8: `buildProgram` returns the null handle exactly when native
program creation fails or the native build step fails; on success it
returns the non-null compiled handle and logs nothing (the handle is not
tracked); on build failure the source text and the build log — read from
the 8192-byte buffer and hence at most 8192 bytes long — are logged. -/
theorem buildProgram_null_iff_failure (env : CLEnv) (d : QQuickCLContextPrivate)
    (src : List Char) :
    ((buildProgram env d src).1 = 0 ↔
      (env.createProgramHandle d.context = 0 ∨ env.buildErr ≠ 0))
    ∧ ((buildProgram env d src).1 ≠ 0 →
        (buildProgram env d src).1 = env.createProgramHandle d.context
        ∧ (buildProgram env d src).2 = [])
    ∧ (env.createProgramHandle d.context ≠ 0 → env.buildErr ≠ 0 →
        src ∈ (buildProgram env d src).2
        ∧ takeToNul (padBuf 8192 env.buildLogWrite) ∈ (buildProgram env d src).2
        ∧ (takeToNul (padBuf 8192 env.buildLogWrite)).length ≤ 8192) := by
  have hlen : (takeToNul (padBuf 8192 env.buildLogWrite)).length ≤ 8192 := by
    calc (takeToNul (padBuf 8192 env.buildLogWrite)).length
        ≤ (padBuf 8192 env.buildLogWrite).length := takeToNul_length_le _
      _ = 8192 := padBuf_length _ _
  unfold buildProgram
  by_cases h1 : env.createProgramHandle d.context = 0
  · simp [h1]
  · by_cases h2 : env.buildErr = 0
    · simp [h1, h2]
    · simp [h1, h2, hlen]

/-- Claim C8 witness at the concrete environment `envBuildFail`, where
program creation succeeds and the build step fails. -/
theorem buildProgram_null_iff_failure_witness :
    "kernel src".toList ∈ (buildProgram envBuildFail initialState "kernel src".toList).2
    ∧ takeToNul (padBuf 8192 envBuildFail.buildLogWrite)
        ∈ (buildProgram envBuildFail initialState "kernel src".toList).2 :=
  ⟨((buildProgram_null_iff_failure envBuildFail initialState "kernel src".toList).2.2
      (by decide) (by decide)).1,
   ((buildProgram_null_iff_failure envBuildFail initialState "kernel src".toList).2.2
      (by decide) (by decide)).2.1⟩

/-- Claim C9: with the native info queries writing nothing for null
handles (the conforming failure mode), `platformName()` and
`deviceExtensions()` called in the pre-create all-null state return the
empty byte string without failing; and in every state their results come
from the 1024- and 8192-byte buffers truncated at the first null byte,
so they are at most that long and contain no null byte. -/
theorem diagnostics_null_safe_bounded (env : CLEnv) (d : QQuickCLContextPrivate)
    (hpw : env.platformInfoWrite 0 = [])
    (hdw : env.deviceInfoWrite 0 = [])
    (hp : d.platform = 0) (hd : d.device = 0) :
    platformName env d = [] ∧ deviceExtensions env d = []
    ∧ (∀ (env2 : CLEnv) (d2 : QQuickCLContextPrivate),
        (platformName env2 d2).length ≤ 1024
        ∧ (deviceExtensions env2 d2).length ≤ 8192
        ∧ (∀ c ∈ platformName env2 d2, c ≠ nulChar)
        ∧ (∀ c ∈ deviceExtensions env2 d2, c ≠ nulChar)) := by
  refine ⟨?_, ?_, ?_⟩
  · unfold platformName
    rw [hp, hpw, padBuf_nil, takeToNul_replicate]
  · unfold deviceExtensions
    rw [hd, hdw, padBuf_nil, takeToNul_replicate]
  · intro env2 d2
    refine ⟨?_, ?_, ?_, ?_⟩
    · calc (platformName env2 d2).length
          ≤ (padBuf 1024 (env2.platformInfoWrite d2.platform)).length :=
            takeToNul_length_le _
        _ = 1024 := padBuf_length _ _
    · calc (deviceExtensions env2 d2).length
          ≤ (padBuf 8192 (env2.deviceInfoWrite d2.device)).length :=
            takeToNul_length_le _
        _ = 8192 := padBuf_length _ _
    · intro c hc
      exact takeToNul_no_nul _ _ hc
    · intro c hc
      exact takeToNul_no_nul _ _ hc

/-- Claim C9 witness at a concrete environment and the all-null state. -/
theorem diagnostics_null_safe_bounded_witness :
    platformName envNoGL initialState = []
    ∧ deviceExtensions envNoGL initialState = [] :=
  ⟨(diagnostics_null_safe_bounded envNoGL initialState rfl rfl rfl rfl).1,
   (diagnostics_null_safe_bounded envNoGL initialState rfl rfl rfl rfl).2.1⟩

/-- Claim C10: when the vendor string contains `ATI` and neither `NVIDIA`
nor `Intel`, the selection override matches exactly the platforms whose
name contains `AMD`; a platform whose name contains `ATI` but not `AMD`
is never matched by the override, and when no platform name contains
`AMD` the default first platform stays selected. -/
theorem amd_bucket_matches_AMD_token (v : String)
    (hati : hasSubstr v.toList atiTok = true)
    (hnv : hasSubstr v.toList nvidiaTok = false)
    (hint : hasSubstr v.toList intelTok = false) :
    (∀ name, platformMatch (vendorHas (some v) nvidiaTok) (vendorHas (some v) intelTok)
        (vendorHas (some v) atiTok) name = hasSubstr name amdTok)
    ∧ (∀ name, hasSubstr name amdTok = false →
        platformMatch (vendorHas (some v) nvidiaTok) (vendorHas (some v) intelTok)
          (vendorHas (some v) atiTok) name = false)
    ∧ (∀ (nameF : Nat → List Char) (ps : List Nat),
        (∀ p ∈ ps, hasSubstr (nameF p) amdTok = false) →
        selectPlatform (vendorHas (some v) nvidiaTok) (vendorHas (some v) intelTok)
          (vendorHas (some v) atiTok) nameF ps = ps.headD 0) := by
  have hati2 : hasSubstr v.data atiTok = true := hati
  have hnv2 : hasSubstr v.data nvidiaTok = false := hnv
  have hint2 : hasSubstr v.data intelTok = false := hint
  have hm : ∀ name, platformMatch (vendorHas (some v) nvidiaTok)
      (vendorHas (some v) intelTok) (vendorHas (some v) atiTok) name
        = hasSubstr name amdTok := by
    intro name
    simp [platformMatch, vendorHas, hati, hnv, hint, hati2, hnv2, hint2]
  refine ⟨hm, ?_, ?_⟩
  · intro name h
    rw [hm name, h]
  · intro nameF ps hall
    rw [selectPlatform_eq_getLastD]
    have hfil : (ps.filter fun q => platformMatch (vendorHas (some v) nvidiaTok)
        (vendorHas (some v) intelTok) (vendorHas (some v) atiTok) (nameF q)) = [] := by
      apply List.filter_eq_nil_iff.2
      intro p hp
      rw [hm (nameF p)]
      simp [hall p hp]
    rw [hfil]
    rfl

/-- Claim C10 witness: with the real-world vendor string
`"ATI Technologies Inc."` and platforms named `"ATI Stream"` and
`"Clover"` (no name contains `AMD`), the first platform stays
selected. -/
theorem amd_bucket_matches_AMD_token_witness :
    hasSubstr "ATI Technologies Inc.".toList atiTok = true
    ∧ selectPlatform (vendorHas (some "ATI Technologies Inc.") nvidiaTok)
        (vendorHas (some "ATI Technologies Inc.") intelTok)
        (vendorHas (some "ATI Technologies Inc.") atiTok) namesATIOnly [1, 2]
        = [1, 2].headD 0 :=
  ⟨by decide,
   (amd_bucket_matches_AMD_token "ATI Technologies Inc." (by decide) (by decide)
      (by decide)).2.2 namesATIOnly [1, 2] (by decide)⟩

end QQuickCLContext
